import Mathlib

/-!
Verification of `read_db.py`: a script that exports the `todos` table of the
SQLite database file `todos.db` into the JSON file `todos_data.json`.

The script is a straight-line sequence:

  conn = sqlite3.connect('todos.db')
  cursor = conn.cursor()
  cursor.execute('PRAGMA table_info(todos)')
  columns = [row[1] for row in cursor.fetchall()]
  cursor.execute('SELECT * FROM todos')
  rows = cursor.fetchall()
  result = \x7b "table": "todos", "columns": columns,
             "row_count": len(rows), "data": [] \x7d
  for row in rows:
      item = \x7b\x7d
      for i, col in enumerate(columns):
          item[col] = row[i]
      result["data"].append(item)
  with open('todos_data.json', 'w', encoding='utf-8') as f:
      json.dump(result, f, indent=2, ensure_ascii=False)
  print("Data saved to todos_data.json")
  conn.close()

The embedding models the SQLite library behaviour the script exercises:
`sqlite3.connect` creates an empty database file when none exists (it does
not fail for a missing file); `PRAGMA table_info` on a missing table
returns an empty row list without raising; `SELECT * FROM todos` raises
`sqlite3.OperationalError: no such table: todos` when the table is absent.
`json.dump` is modelled including its incremental behaviour: chunks are
written into the already-truncated output file until a non-serializable
value (a `bytes` cell) raises `TypeError`, leaving a partial file behind.
-/

/-- A SQLite cell value as returned to Python by `cursor.fetchall()`:
integer, real, text, NULL, or blob (`bytes`).  Real numbers are carried by
their Python `repr` string, which is also the token `json.dump` emits for
them; no arithmetic is ever performed on them by the script. -/
inductive Cell where
  | cInt (n : Int)
  | cReal (r : String)
  | cText (s : String)
  | cNull
  | cBlob (bs : List Nat)
deriving DecidableEq, Repr

/-- One row of the `PRAGMA table_info(todos)` result: `(cid, name, type,
notnull, dflt_value, pk)`.  The script only reads index 1, the name. -/
structure ColumnInfo where
  cid : Nat
  name : String
  ctype : String
  notnullFlag : Bool
  dflt : Option String
  pk : Nat
deriving DecidableEq, Repr

/-- The stored `todos` table: its schema rows in declared column order and
its data rows in the order the storage engine yields them. -/
structure TableData where
  info : List ColumnInfo
  rows : List (List Cell)
deriving DecidableEq, Repr

/-- The contents of the SQLite database file `todos.db`: it either contains
a `todos` table or it does not. -/
structure DbFile where
  todos : Option TableData
deriving DecidableEq, Repr

/-- The part of the filesystem the script touches: the database file
`todos.db` (`none` when missing) and the output file `todos_data.json`
(`none` when missing, otherwise its text content). -/
structure Fs where
  dbFile : Option DbFile
  outFile : Option String
deriving DecidableEq, Repr

/-- The step of the script at which an exception is raised. -/
inductive Step where
  | connectStep
  | schemaStep
  | selectStep
  | transformStep
  | writeStep
deriving DecidableEq, Repr

/-- The Python exceptions the script can raise:
`sqlite3.OperationalError`, `IndexError` (from `row[i]`), and `TypeError`
(from `json.dump` on a non-serializable value). -/
inductive PyError where
  | operationalError (msg : String)
  | indexError
  | typeError (msg : String)
deriving DecidableEq, Repr

/-- `sqlite3.connect('todos.db')`: when the file exists its contents are
opened; when it is missing, SQLite creates an empty database file (a
database with no tables) and the call succeeds. -/
def connectDb (dbFile : Option DbFile) : DbFile :=
  match dbFile with
  | some db => db
  | none => ⟨none⟩

/-- `cursor.execute('PRAGMA table_info(todos)'); cursor.fetchall()`:
the schema rows of `todos` in declared order, or the empty list when the
table does not exist (the PRAGMA does not raise). -/
def pragmaTableInfo (db : DbFile) : List ColumnInfo :=
  match db.todos with
  | some t => t.info
  | none => []

/-- `columns = [row[1] for row in cursor.fetchall()]`: index 1 of each
`table_info` row is the column name. -/
def readColumns (db : DbFile) : List String :=
  (pragmaTableInfo db).map ColumnInfo.name

/-- `cursor.execute('SELECT * FROM todos'); rows = cursor.fetchall()`:
all rows in storage order, or `sqlite3.OperationalError` when the table
does not exist. -/
def selectAll (db : DbFile) : Except PyError (List (List Cell)) :=
  match db.todos with
  | some t => .ok t.rows
  | none => .error (.operationalError "no such table: todos")

/-- `item[col] = v` on a Python `dict` (insertion order preserved): an
existing key keeps its position and gets the new value, a new key is
appended at the end. -/
def dictSet (item : List (String × Cell)) (k : String) (v : Cell) :
    List (String × Cell) :=
  if item.any (fun kv => kv.1 = k) then
    item.map (fun kv => if kv.1 = k then (k, v) else kv)
  else
    item ++ [(k, v)]

/-- The inner loop `for i, col in enumerate(columns): item[col] = row[i]`,
with `i` running from the given start index; `row[i]` raises `IndexError`
when `i` is out of range. -/
def buildItemGo (row : List Cell) :
    Nat → List String → List (String × Cell) →
    Except PyError (List (String × Cell))
  | _, [], item => .ok item
  | i, col :: rest, item =>
    match row[i]? with
    | some v => buildItemGo row (i + 1) rest (dictSet item col v)
    | none => .error .indexError

/-- Build one record (`item`) from a row: pair each column name, by
position, with the corresponding row value. -/
def buildItem (columns : List String) (row : List Cell) :
    Except PyError (List (String × Cell)) :=
  buildItemGo row 0 columns []

/-- The outer loop `for row in rows: ... result["data"].append(item)`:
records in row order, stopping at the first exception. -/
def buildData (columns : List String) :
    List (List Cell) → Except PyError (List (List (String × Cell)))
  | [] => .ok []
  | row :: rest => do
    let item ← buildItem columns row
    let items ← buildData columns rest
    .ok (item :: items)

/-- The in-memory `result` dict: table name, column list, `row_count`
computed as `len(rows)`, and the list of records, with keys in this
insertion order. -/
structure ExportDoc where
  table : String
  columns : List String
  rowCount : Nat
  data : List (List (String × Cell))
deriving DecidableEq, Repr

/-- Steps 2-5 of the script on an open connection: read the schema, read
the rows, transform rows to records and assemble the `result` document,
recording the step at which an exception is raised. -/
def docOfDb (db : DbFile) : Except (Step × PyError) ExportDoc :=
  let columns := readColumns db
  match selectAll db with
  | .error e => .error (.selectStep, e)
  | .ok rows =>
    match buildData columns rows with
    | .error e => .error (.transformStep, e)
    | .ok data => .ok ⟨"todos", columns, rows.length, data⟩

/-- A hexadecimal digit as emitted by Python's `'\\u\x7b0:04x\x7d'.format`. -/
def hexDig (n : Nat) : Char :=
  if n < 10 then Char.ofNat (48 + n) else Char.ofNat (87 + n)

/-- How `json.dump(..., ensure_ascii=False)` renders one character inside a
string literal: backslash, double quote and control characters below
`0x20` are escaped, every other character (non-ASCII included) is kept
literally. -/
def escChar (c : Char) : String :=
  if c = '\\' then "\\\\"
  else if c = '"' then "\\\""
  else if c = Char.ofNat 8 then "\\b"
  else if c = Char.ofNat 12 then "\\f"
  else if c = '\n' then "\\n"
  else if c = Char.ofNat 13 then "\\r"
  else if c = '\t' then "\\t"
  else if c.toNat < 32 then
    "\\u00" ++ String.singleton (hexDig (c.toNat / 16)) ++
      String.singleton (hexDig (c.toNat % 16))
  else
    String.singleton c

/-- A JSON string literal as emitted with `ensure_ascii=False`. -/
def pyJsonStr (s : String) : String :=
  "\"" ++ String.join (s.toList.map escChar) ++ "\""

/-- `indent=2`: the indentation prefix at a given nesting level. -/
def indentOf (lvl : Nat) : String :=
  String.join (List.replicate lvl "  ")

/-- The JSON token for one cell value, with a success flag: a `bytes`
(blob) cell is not JSON serializable, so `json.dump` raises `TypeError`
having emitted nothing for it. -/
def serCell : Cell → String × Bool
  | .cInt n => (toString n, true)
  | .cReal r => (r, true)
  | .cText s => (pyJsonStr s, true)
  | .cNull => ("null", true)
  | .cBlob _ => ("", false)

/-- Serialization of the entries of a non-empty record dict at entry
indentation `lvl`, mirroring `json.dump`'s chunk emission: the opening
brace and newline-indent come with the first entry, `",\n" ++ indent`
before each later entry, then `"key": ` and the value token.  On a failing
value the written prefix up to and including `"key": ` is returned with the
failure flag. -/
def serRecordGo (lvl : Nat) :
    List (String × Cell) → Bool → String × Bool
  | [], _ => ("", true)
  | (k, v) :: rest, first =>
    let pre := (if first then "\x7b\n" ++ indentOf lvl
                else ",\n" ++ indentOf lvl) ++ pyJsonStr k ++ ": "
    let sv := serCell v
    if sv.2 then
      let srest := serRecordGo lvl rest false
      (pre ++ sv.1 ++ srest.1, srest.2)
    else
      (pre ++ sv.1, false)

/-- One record dict serialized at indentation level `lvl`: `\x7b\x7d` when
empty, otherwise the entries followed, on success, by the closing
newline-indent-brace. -/
def serRecord (lvl : Nat) (item : List (String × Cell)) : String × Bool :=
  match item with
  | [] => ("\x7b\x7d", true)
  | _ =>
    let s := serRecordGo (lvl + 1) item true
    if s.2 then (s.1 ++ "\n" ++ indentOf lvl ++ "\x7d", true)
    else (s.1, false)

/-- Serialization of the elements of the non-empty `data` list at list
indentation level `lvl`: the opening bracket and newline-indent come with
the first element, `",\n" ++ indent` before each later one, then the
record's own chunks. -/
def serDataGo (lvl : Nat) :
    List (List (String × Cell)) → Bool → String × Bool
  | [], _ => ("", true)
  | item :: rest, first =>
    let pre := if first then "[\n" ++ indentOf (lvl + 1)
               else ",\n" ++ indentOf (lvl + 1)
    let si := serRecord (lvl + 1) item
    if si.2 then
      let srest := serDataGo lvl rest false
      (pre ++ si.1 ++ srest.1, srest.2)
    else
      (pre ++ si.1, false)

/-- The `data` list serialized at indentation level `lvl`. -/
def serData (lvl : Nat) (data : List (List (String × Cell))) :
    String × Bool :=
  match data with
  | [] => ("[]", true)
  | _ =>
    let s := serDataGo lvl data true
    if s.2 then (s.1 ++ "\n" ++ indentOf lvl ++ "]", true)
    else (s.1, false)

/-- A list of strings (the `columns` value) serialized at indentation
level `lvl`; strings are always serializable. -/
def serStrList (lvl : Nat) (xs : List String) : String :=
  match xs with
  | [] => "[]"
  | x :: rest =>
    "[\n" ++ indentOf (lvl + 1) ++ pyJsonStr x ++
      String.join (rest.map fun s => ",\n" ++ indentOf (lvl + 1) ++ pyJsonStr s) ++
      "\n" ++ indentOf lvl ++ "]"

/-- `json.dump(result, f, indent=2, ensure_ascii=False)` on the `result`
dict: the text written to the file together with a success flag.  The keys
appear in the dict's insertion order `table`, `columns`, `row_count`,
`data`; on failure (a blob cell inside `data`) the first component is
exactly the prefix of chunks written before `TypeError` was raised. -/
def serDoc (doc : ExportDoc) : String × Bool :=
  let pre := "\x7b\n" ++ indentOf 1 ++ pyJsonStr "table" ++ ": " ++
    pyJsonStr doc.table ++
    ",\n" ++ indentOf 1 ++ pyJsonStr "columns" ++ ": " ++
    serStrList 1 doc.columns ++
    ",\n" ++ indentOf 1 ++ pyJsonStr "row_count" ++ ": " ++
    toString doc.rowCount ++
    ",\n" ++ indentOf 1 ++ pyJsonStr "data" ++ ": "
  let sd := serData 1 doc.data
  if sd.2 then (pre ++ sd.1 ++ "\n\x7d", true)
  else (pre ++ sd.1, false)

instance {ε α : Type} [DecidableEq ε] [DecidableEq α] :
    DecidableEq (Except ε α) := fun a b =>
  match a, b with
  | .ok x, .ok y =>
    if h : x = y then .isTrue (by rw [h])
    else .isFalse (by intro hc; cases hc; exact h rfl)
  | .error x, .error y =>
    if h : x = y then .isTrue (by rw [h])
    else .isFalse (by intro hc; cases hc; exact h rfl)
  | .ok _, .error _ => .isFalse (by intro hc; cases hc)
  | .error _, .ok _ => .isFalse (by intro hc; cases hc)

/-- The observable outcome of one run of the script: the final filesystem,
the exit outcome (normal or a propagated exception with the step it was
raised at), the assembled in-memory `result` document when the run got
that far, whether `conn.close()` was executed, and the console output. -/
structure RunResult where
  fs : Fs
  outcome : Except (Step × PyError) Unit
  doc : Option ExportDoc
  connClosed : Bool
  printed : List String
deriving DecidableEq, Repr

/-- One run of `read_db.py` on a given filesystem.  `sqlite3.connect`
always succeeds, creating an empty `todos.db` when missing.  Any exception
in a later step propagates and aborts the script, skipping the remaining
statements — in particular the final `conn.close()`, which is not guarded
by `try/finally` or a `with` block.  `open('todos_data.json', 'w')`
truncates the output file before `json.dump` starts writing, so on a
serialization failure the file holds exactly the prefix written so far. -/
def readDb (fs : Fs) : RunResult :=
  let db := connectDb fs.dbFile
  let fs1 : Fs := { fs with dbFile := some db }
  match docOfDb db with
  | .error se =>
    { fs := fs1, outcome := .error se, doc := none,
      connClosed := false, printed := [] }
  | .ok doc =>
    let sd := serDoc doc
    let fs2 : Fs := { fs1 with outFile := some sd.1 }
    if sd.2 then
      { fs := fs2, outcome := .ok (), doc := some doc,
        connClosed := true, printed := ["Data saved to todos_data.json"] }
    else
      { fs := fs2,
        outcome := .error (.writeStep,
          .typeError "Object of type bytes is not JSON serializable"),
        doc := some doc, connClosed := false, printed := [] }

/-- The `todos` table of the spec's scenario: columns
`(id INTEGER, title TEXT, done INTEGER)` and rows `(1, "Buy milk", 0)`,
`(2, "Pay bills", 1)`. -/
def todosTable : TableData :=
  ⟨[⟨0, "id", "INTEGER", false, none, 0⟩,
    ⟨1, "title", "TEXT", false, none, 0⟩,
    ⟨2, "done", "INTEGER", false, none, 0⟩],
   [[.cInt 1, .cText "Buy milk", .cInt 0],
    [.cInt 2, .cText "Pay bills", .cInt 1]]⟩

/-- A `todos` table holding one blob cell, which `json.dump` cannot
serialize. -/
def blobTable : TableData :=
  ⟨[⟨0, "payload", "BLOB", false, none, 0⟩], [[.cBlob [0, 1]]]⟩

/-- A `todos` table with a schema but zero rows. -/
def emptyTable : TableData :=
  ⟨[⟨0, "id", "INTEGER", false, none, 0⟩], []⟩

/-! ## Properties of the transform loop -/

theorem dictSet_notMem (item : List (String × Cell)) (k : String) (v : Cell)
    (h : k ∉ item.map Prod.fst) : dictSet item k v = item ++ [(k, v)] := by
  have hc : item.any (fun kv => kv.1 = k) = false := by
    simp only [List.any_eq_false, decide_eq_true_eq]
    intro kv hkv hk
    exact h (List.mem_map.mpr ⟨kv, hkv, hk⟩)
  simp [dictSet, hc]

theorem buildItemGo_eq (row : List Cell) (cols : List String) :
    ∀ (i : Nat) (item : List (String × Cell)),
      i + cols.length ≤ row.length → cols.Nodup →
      (∀ c ∈ cols, c ∉ item.map Prod.fst) →
      buildItemGo row i cols item = .ok (item ++ cols.zip (row.drop i)) := by
  induction cols with
  | nil => intro i item _ _ _; simp [buildItemGo]
  | cons col rest ih =>
    intro i item hle hnd hdisj
    have hi : i < row.length := by
      simp only [List.length_cons] at hle; omega
    have hget : row[i]? = some row[i] := List.getElem?_eq_getElem hi
    have hdrop : row.drop i = row[i] :: row.drop (i + 1) :=
      List.drop_eq_getElem_cons hi
    have hcol : col ∉ item.map Prod.fst := hdisj col (by simp)
    have hnd' : rest.Nodup := (List.nodup_cons.mp hnd).2
    have hdisj' : ∀ c ∈ rest,
        c ∉ (item ++ [(col, row[i])]).map Prod.fst := by
      intro c hc
      have h1 : c ∉ item.map Prod.fst := hdisj c (List.mem_cons_of_mem _ hc)
      have h2 : c ≠ col := by
        intro he
        exact (List.nodup_cons.mp hnd).1 (he ▸ hc)
      simp [h1, h2]
    simp only [buildItemGo, hget]
    rw [dictSet_notMem _ _ _ hcol,
        ih (i + 1) _ (by simp only [List.length_cons] at hle; omega) hnd' hdisj']
    simp only [List.append_assoc, List.singleton_append, Except.ok.injEq]
    rw [hdrop, List.zip_cons_cons]

theorem buildItem_eq (columns : List String) (row : List Cell)
    (hlen : columns.length ≤ row.length) (hnd : columns.Nodup) :
    buildItem columns row = .ok (columns.zip row) := by
  have h := buildItemGo_eq row columns 0 [] (by omega) hnd (by simp)
  simpa [buildItem] using h

theorem buildData_eq (columns : List String) (hnd : columns.Nodup)
    (rows : List (List Cell))
    (hlen : ∀ row ∈ rows, columns.length ≤ row.length) :
    buildData columns rows = .ok (rows.map fun row => columns.zip row) := by
  induction rows with
  | nil => simp [buildData]
  | cons row rest ih =>
    have h1 : buildItem columns row = .ok (columns.zip row) :=
      buildItem_eq columns row (hlen row (by simp)) hnd
    have h2 := ih (fun r hr => hlen r (List.mem_cons_of_mem _ hr))
    simp only [buildData, h1, h2, List.map_cons]
    rfl

theorem docOfDb_ok (t : TableData)
    (hnd : (t.info.map ColumnInfo.name).Nodup)
    (hlen : ∀ row ∈ t.rows, (t.info.map ColumnInfo.name).length ≤ row.length) :
    docOfDb ⟨some t⟩ =
      .ok ⟨"todos", t.info.map ColumnInfo.name, t.rows.length,
           t.rows.map fun row => (t.info.map ColumnInfo.name).zip row⟩ := by
  simp [docOfDb, readColumns, pragmaTableInfo, selectAll,
        buildData_eq _ hnd _ hlen]

/-! ## Unfolding the run by cases -/

theorem readDb_of_error (fs : Fs) (se : Step × PyError)
    (h : docOfDb (connectDb fs.dbFile) = .error se) :
    readDb fs =
      { fs := { fs with dbFile := some (connectDb fs.dbFile) },
        outcome := .error se, doc := none,
        connClosed := false, printed := [] } := by
  simp only [readDb, h]

theorem readDb_of_ok_true (fs : Fs) (doc : ExportDoc)
    (h : docOfDb (connectDb fs.dbFile) = .ok doc)
    (hs : (serDoc doc).2 = true) :
    readDb fs =
      { fs := { dbFile := some (connectDb fs.dbFile),
                outFile := some (serDoc doc).1 },
        outcome := .ok (), doc := some doc, connClosed := true,
        printed := ["Data saved to todos_data.json"] } := by
  simp only [readDb, h, hs, if_true]

theorem readDb_of_ok_false (fs : Fs) (doc : ExportDoc)
    (h : docOfDb (connectDb fs.dbFile) = .ok doc)
    (hs : (serDoc doc).2 = false) :
    readDb fs =
      { fs := { dbFile := some (connectDb fs.dbFile),
                outFile := some (serDoc doc).1 },
        outcome := .error (.writeStep,
          .typeError "Object of type bytes is not JSON serializable"),
        doc := some doc, connClosed := false, printed := [] } := by
  simp only [readDb, h, hs, Bool.false_eq_true, if_false]

/-! ## Properties of the serializer -/

theorem serRecordGo_blob (lvl : Nat) :
    ∀ (item : List (String × Cell)) (first : Bool),
      (∃ kv ∈ item, ∃ bs, kv.2 = Cell.cBlob bs) →
      (serRecordGo lvl item first).2 = false := by
  intro item
  induction item with
  | nil => intro first h; simp at h
  | cons kv rest ih =>
    obtain ⟨k, v⟩ := kv
    intro first h
    rcases h with ⟨kv', hmem, bs, hkv⟩
    rcases List.mem_cons.mp hmem with heq | hmem'
    · subst heq
      simp only at hkv
      subst hkv
      simp [serRecordGo, serCell]
    · cases hv : (serCell v).2 with
      | false => simp [serRecordGo, hv]
      | true => simp [serRecordGo, hv, ih false ⟨kv', hmem', bs, hkv⟩]

theorem serRecord_blob (lvl : Nat) (item : List (String × Cell))
    (h : ∃ kv ∈ item, ∃ bs, kv.2 = Cell.cBlob bs) :
    (serRecord lvl item).2 = false := by
  match item with
  | [] => simp at h
  | kv :: rest =>
    have hg := serRecordGo_blob (lvl + 1) (kv :: rest) true h
    simp [serRecord, hg]

theorem serDataGo_blob (lvl : Nat) :
    ∀ (data : List (List (String × Cell))) (first : Bool),
      (∃ item ∈ data, ∃ kv ∈ item, ∃ bs, kv.2 = Cell.cBlob bs) →
      (serDataGo lvl data first).2 = false := by
  intro data
  induction data with
  | nil => intro first h; simp at h
  | cons item rest ih =>
    intro first h
    rcases h with ⟨item', hmem, hblob⟩
    rcases List.mem_cons.mp hmem with heq | hmem'
    · subst heq
      simp [serDataGo, serRecord_blob (lvl + 1) item' hblob]
    · cases hv : (serRecord (lvl + 1) item).2 with
      | false => simp [serDataGo, hv]
      | true => simp [serDataGo, hv, ih false ⟨item', hmem', hblob⟩]

theorem serData_blob (lvl : Nat) (data : List (List (String × Cell)))
    (h : ∃ item ∈ data, ∃ kv ∈ item, ∃ bs, kv.2 = Cell.cBlob bs) :
    (serData lvl data).2 = false := by
  match data with
  | [] => simp at h
  | item :: rest =>
    have hg := serDataGo_blob lvl (item :: rest) true h
    simp [serData, hg]

theorem serDoc_blob (doc : ExportDoc)
    (h : ∃ item ∈ doc.data, ∃ kv ∈ item, ∃ bs, kv.2 = Cell.cBlob bs) :
    (serDoc doc).2 = false := by
  simp [serDoc, serData_blob 1 doc.data h]

theorem escChar_nonascii (c : Char) (h : 128 ≤ c.toNat) :
    escChar c = String.singleton c := by
  have h1 : c ≠ '\\' := fun he => by subst he; revert h; decide
  have h2 : c ≠ '"' := fun he => by subst he; revert h; decide
  have h3 : c ≠ Char.ofNat 8 := fun he => by subst he; revert h; decide
  have h4 : c ≠ Char.ofNat 12 := fun he => by subst he; revert h; decide
  have h5 : c ≠ '\n' := fun he => by subst he; revert h; decide
  have h6 : c ≠ Char.ofNat 13 := fun he => by subst he; revert h; decide
  have h7 : c ≠ '\t' := fun he => by subst he; revert h; decide
  have h8 : ¬ c.toNat < 32 := by omega
  simp [escChar, h1, h2, h3, h4, h5, h6, h7, h8]

theorem strAppendAssoc (a b c : String) : a ++ b ++ c = a ++ (b ++ c) := by
  cases a with | mk la =>
  cases b with | mk lb =>
  cases c with | mk lc =>
  show String.mk ((la ++ lb) ++ lc) = String.mk (la ++ (lb ++ lc))
  rw [List.append_assoc]

theorem serDoc_ok_eq (doc : ExportDoc) (hs : (serDoc doc).2 = true) :
    (serDoc doc).1 =
      "\x7b\n  \"table\": " ++ pyJsonStr doc.table ++
      ",\n  \"columns\": " ++ serStrList 1 doc.columns ++
      ",\n  \"row_count\": " ++ toString doc.rowCount ++
      ",\n  \"data\": " ++ (serData 1 doc.data).1 ++ "\n\x7d" := by
  have e1 : ("\x7b\n  \"table\": " : String) =
      "\x7b\n" ++ indentOf 1 ++ pyJsonStr "table" ++ ": " := by decide
  have e2 : (",\n  \"columns\": " : String) =
      ",\n" ++ indentOf 1 ++ pyJsonStr "columns" ++ ": " := by decide
  have e3 : (",\n  \"row_count\": " : String) =
      ",\n" ++ indentOf 1 ++ pyJsonStr "row_count" ++ ": " := by decide
  have e4 : (",\n  \"data\": " : String) =
      ",\n" ++ indentOf 1 ++ pyJsonStr "data" ++ ": " := by decide
  rw [e1, e2, e3, e4]
  by_cases hd : (serData 1 doc.data).2 = true
  · simp only [serDoc, hd, if_true]
    simp only [strAppendAssoc]
  · rw [serDoc] at hs
    simp only [Bool.not_eq_true] at hd
    rw [hd] at hs
    simp at hs

theorem readDb_doc_of_ok (fs : Fs) (doc : ExportDoc)
    (h : docOfDb (connectDb fs.dbFile) = .ok doc) :
    (readDb fs).doc = some doc := by
  cases hs : (serDoc doc).2 with
  | true => rw [readDb_of_ok_true fs doc h hs]
  | false => rw [readDb_of_ok_false fs doc h hs]

theorem mem_zip_right {α β : Type} :
    ∀ (xs : List α) (ys : List β) (b : β), b ∈ ys → ys.length ≤ xs.length →
      ∃ a, (a, b) ∈ xs.zip ys := by
  intro xs ys
  induction ys generalizing xs with
  | nil => intro b hb _; simp at hb
  | cons y ys ih =>
    intro b hb hlen
    cases xs with
    | nil => simp at hlen
    | cons x xs =>
      rcases List.mem_cons.mp hb with rfl | hb'
      · refine ⟨x, ?_⟩
        rw [List.zip_cons_cons]
        exact List.mem_cons_self _ _
      · obtain ⟨a, ha⟩ :=
          ih xs b hb' (by simp only [List.length_cons] at hlen; omega)
        refine ⟨a, ?_⟩
        rw [List.zip_cons_cons]
        exact List.mem_cons_of_mem _ ha

/-! ## The claims -/

/-- C1: for every database table, the export document produced satisfies
`row_count == length(data)`, and every record in `data` has a key set
exactly equal to the `columns` list (no missing keys, no extra keys, and in
the same order), assuming column names are distinct and each row has one
value per column. -/
theorem c1_doc_invariant (fs : Fs) (t : TableData)
    (ht : fs.dbFile = some ⟨some t⟩)
    (hnd : (t.info.map ColumnInfo.name).Nodup)
    (hlen : ∀ row ∈ t.rows, row.length = t.info.length) :
    ∃ doc, (readDb fs).doc = some doc ∧
      doc.rowCount = doc.data.length ∧
      ∀ item ∈ doc.data, item.map Prod.fst = doc.columns := by
  have hconn : connectDb fs.dbFile = ⟨some t⟩ := by rw [ht]; rfl
  have hlen' : ∀ row ∈ t.rows,
      (t.info.map ColumnInfo.name).length ≤ row.length := by
    intro row hr
    have := hlen row hr
    simp only [List.length_map]
    omega
  have hdoc : docOfDb (connectDb fs.dbFile) =
      .ok ⟨"todos", t.info.map ColumnInfo.name, t.rows.length,
           t.rows.map fun row => (t.info.map ColumnInfo.name).zip row⟩ := by
    rw [hconn]; exact docOfDb_ok t hnd hlen'
  refine ⟨_, readDb_doc_of_ok fs _ hdoc, by simp, ?_⟩
  intro item hitem
  simp only [List.mem_map] at hitem
  obtain ⟨row, hrow, rfl⟩ := hitem
  exact List.map_fst_zip _ _ (hlen' row hrow)

/-- C1 witness: the invariant instantiated at the scenario table. -/
theorem c1_witness :
    (todosTable.info.map ColumnInfo.name).Nodup ∧
    ∃ doc, (readDb ⟨some ⟨some todosTable⟩, none⟩).doc = some doc ∧
      doc.rowCount = doc.data.length ∧
      ∀ item ∈ doc.data, item.map Prod.fst = doc.columns :=
  ⟨by decide,
   c1_doc_invariant ⟨some ⟨some todosTable⟩, none⟩ todosTable rfl (by decide)
     (by
       intro row hr
       simp only [todosTable, List.mem_cons, List.not_mem_nil, or_false] at hr
       rcases hr with rfl | rfl <;> rfl)⟩

/-- C2 counterexample: the claim "on every exit path the connection is
closed before the process exits" fails at the concrete input of a database
whose `todos` table is missing: the run exits with an error and
`conn.close()` was never executed, because the script has no `try/finally`
or `with` block around the connection. -/
theorem c2_counterexample :
    (readDb ⟨some ⟨none⟩, none⟩).connClosed = false ∧
    (readDb ⟨some ⟨none⟩, none⟩).outcome ≠ .ok () := by decide

/-- C2 (amended): the connection is closed if and only if the run
succeeds; on every failing exit path the propagated exception skips the
final `conn.close()`. -/
theorem c2_close_iff_success (fs : Fs) :
    (readDb fs).connClosed = true ↔ (readDb fs).outcome = .ok () := by
  cases h : docOfDb (connectDb fs.dbFile) with
  | error se =>
    rw [readDb_of_error fs se h]
    simp
  | ok doc =>
    cases hs : (serDoc doc).2 with
    | true =>
      rw [readDb_of_ok_true fs doc h hs]
      simp
    | false =>
      rw [readDb_of_ok_false fs doc h hs]
      simp

/-- C3 counterexample: with no database file at all, the claim "fails at
the acquire-connection step with a ConnectionError" is false: the connect
step succeeds — it creates an empty `todos.db` — and the failure happens
later, at the `SELECT` (read-rows) step, as an operational
no-such-table error.  No output file is produced. -/
theorem c3_counterexample :
    (readDb ⟨none, none⟩).outcome =
      .error (.selectStep, .operationalError "no such table: todos") ∧
    (readDb ⟨none, none⟩).fs.dbFile = some ⟨none⟩ ∧
    (readDb ⟨none, none⟩).fs.outFile = none := by decide

/-- C3 (amended): if no database file exists at the fixed path, the
connect step succeeds and creates an empty database file; the program then
fails at the read-rows step with `sqlite3.OperationalError: no such table:
todos`, and the output file is left untouched. -/
theorem c3_missing_db (fs : Fs) (h : fs.dbFile = none) :
    (readDb fs).outcome =
      .error (.selectStep, .operationalError "no such table: todos") ∧
    (readDb fs).fs.dbFile = some ⟨none⟩ ∧
    (readDb fs).fs.outFile = fs.outFile := by
  have hconn : connectDb fs.dbFile = ⟨none⟩ := by rw [h]; rfl
  have hd : docOfDb (connectDb fs.dbFile) =
      .error (.selectStep, .operationalError "no such table: todos") := by
    rw [hconn]; rfl
  rw [readDb_of_error fs _ hd]
  exact ⟨rfl, by rw [hconn], rfl⟩

/-- C3 witness: the amended behaviour at a concrete filesystem with a
stale output file and no database. -/
theorem c3_witness :
    (readDb ⟨none, some "stale"⟩).outcome =
      .error (.selectStep, .operationalError "no such table: todos") ∧
    (readDb ⟨none, some "stale"⟩).fs.dbFile = some ⟨none⟩ ∧
    (readDb ⟨none, some "stale"⟩).fs.outFile = some "stale" :=
  c3_missing_db ⟨none, some "stale"⟩ rfl

/-- C4 counterexample: with a database that lacks the `todos` table, the
claim "fails at the read-column-metadata step" is false: `PRAGMA
table_info(todos)` returns the empty list without raising, and the failure
happens at the `SELECT` (read-rows) step. -/
theorem c4_counterexample :
    readColumns ⟨none⟩ = [] ∧
    (readDb ⟨some ⟨none⟩, some "keep"⟩).outcome =
      .error (.selectStep, .operationalError "no such table: todos") ∧
    (readDb ⟨some ⟨none⟩, some "keep"⟩).fs.outFile = some "keep" := by
  decide

/-- C4 (amended): if the database exists but the `todos` table does not,
the read-column-metadata step yields an empty column list without error,
and the program fails at the read-rows step with
`sqlite3.OperationalError: no such table: todos`; the output file is left
untouched. -/
theorem c4_missing_table (fs : Fs) (db : DbFile)
    (h : fs.dbFile = some db) (ht : db.todos = none) :
    readColumns db = [] ∧
    (readDb fs).outcome =
      .error (.selectStep, .operationalError "no such table: todos") ∧
    (readDb fs).fs.outFile = fs.outFile := by
  have hconn : connectDb fs.dbFile = db := by rw [h]; rfl
  have hd : docOfDb (connectDb fs.dbFile) =
      .error (.selectStep, .operationalError "no such table: todos") := by
    rw [hconn]
    simp [docOfDb, selectAll, ht]
  rw [readDb_of_error fs _ hd]
  exact ⟨by simp [readColumns, pragmaTableInfo, ht], rfl, rfl⟩

/-- C4 witness: the amended behaviour at a concrete table-less database. -/
theorem c4_witness :
    (⟨none⟩ : DbFile).todos = none ∧
    (readColumns ⟨none⟩ = [] ∧
     (readDb ⟨some ⟨none⟩, none⟩).outcome =
       .error (.selectStep, .operationalError "no such table: todos") ∧
     (readDb ⟨some ⟨none⟩, none⟩).fs.outFile = none) :=
  ⟨rfl, c4_missing_table ⟨some ⟨none⟩, none⟩ ⟨none⟩ rfl rfl⟩

/-- C5: if the `todos` table exists and contains zero rows, the program
succeeds and the export document has `row_count` equal to `0` and `data`
equal to the empty list. -/
theorem c5_empty_table (fs : Fs) (t : TableData)
    (ht : fs.dbFile = some ⟨some t⟩) (hrows : t.rows = []) :
    (readDb fs).outcome = .ok () ∧
    ∃ doc, (readDb fs).doc = some doc ∧
      doc.rowCount = 0 ∧ doc.data = [] := by
  have hconn : connectDb fs.dbFile = ⟨some t⟩ := by rw [ht]; rfl
  have hd : docOfDb (connectDb fs.dbFile) =
      .ok ⟨"todos", t.info.map ColumnInfo.name, 0, []⟩ := by
    rw [hconn]
    simp [docOfDb, readColumns, pragmaTableInfo, selectAll, hrows, buildData]
  have hs : (serDoc ⟨"todos", t.info.map ColumnInfo.name, 0, []⟩).2 = true := by
    simp [serDoc, serData]
  rw [readDb_of_ok_true fs _ hd hs]
  exact ⟨rfl, _, rfl, rfl, rfl⟩

/-- C5 witness: the empty-table behaviour at a concrete one-column empty
table. -/
theorem c5_witness :
    emptyTable.rows = [] ∧
    ((readDb ⟨some ⟨some emptyTable⟩, none⟩).outcome = .ok () ∧
     ∃ doc, (readDb ⟨some ⟨some emptyTable⟩, none⟩).doc = some doc ∧
       doc.rowCount = 0 ∧ doc.data = []) :=
  ⟨rfl, c5_empty_table ⟨some ⟨some emptyTable⟩, none⟩ emptyTable rfl rfl⟩

/-- C6: determinism — two runs over the same database contents (the
storage engine returning the same rows in the same order) that succeed
produce byte-identical output files and identical console output,
whatever the rest of the filesystem held. -/
theorem c6_deterministic (fs1 fs2 : Fs) (h : fs1.dbFile = fs2.dbFile)
    (hok : (readDb fs1).outcome = .ok ()) :
    (readDb fs2).outcome = .ok () ∧
    (readDb fs1).fs.outFile = (readDb fs2).fs.outFile ∧
    (readDb fs1).printed = (readDb fs2).printed := by
  cases hd : docOfDb (connectDb fs1.dbFile) with
  | error se =>
    rw [readDb_of_error fs1 se hd] at hok
    simp at hok
  | ok doc =>
    have hd2 : docOfDb (connectDb fs2.dbFile) = .ok doc := by
      rw [← h]; exact hd
    cases hs : (serDoc doc).2 with
    | false =>
      rw [readDb_of_ok_false fs1 doc hd hs] at hok
      simp at hok
    | true =>
      rw [readDb_of_ok_true fs1 doc hd hs,
          readDb_of_ok_true fs2 doc hd2 hs]
      exact ⟨rfl, rfl, rfl⟩

/-- C6 witness: two runs on the same database, one with a stale output
file present and one without, give the same successful output. -/
theorem c6_witness :
    (readDb ⟨some ⟨some emptyTable⟩, some "old"⟩).outcome = .ok () ∧
    (readDb ⟨some ⟨some emptyTable⟩, none⟩).fs.outFile =
      (readDb ⟨some ⟨some emptyTable⟩, some "old"⟩).fs.outFile ∧
    (readDb ⟨some ⟨some emptyTable⟩, none⟩).printed =
      (readDb ⟨some ⟨some emptyTable⟩, some "old"⟩).printed :=
  c6_deterministic ⟨some ⟨some emptyTable⟩, none⟩
    ⟨some ⟨some emptyTable⟩, some "old"⟩ rfl (by decide)

/-- C7: on success the serialized output written to the fixed output path
(overwriting whatever was there) is indented structured text with 2-space
indentation and top-level keys in the order `table`, `columns`,
`row_count`, `data`; the string escaper keeps non-ASCII characters
literal (`ensure_ascii=False`). -/
theorem c7_output_format (fs : Fs) (doc : ExportDoc)
    (hdoc : (readDb fs).doc = some doc)
    (hok : (readDb fs).outcome = .ok ()) :
    (readDb fs).fs.outFile = some (serDoc doc).1 ∧
    (serDoc doc).1 =
      "\x7b\n  \"table\": " ++ pyJsonStr doc.table ++
      ",\n  \"columns\": " ++ serStrList 1 doc.columns ++
      ",\n  \"row_count\": " ++ toString doc.rowCount ++
      ",\n  \"data\": " ++ (serData 1 doc.data).1 ++ "\n\x7d" ∧
    (∀ s : String,
      (readDb { fs with outFile := some s }).fs.outFile =
        some (serDoc doc).1) ∧
    (∀ c : Char, 128 ≤ c.toNat → escChar c = String.singleton c) := by
  cases hd : docOfDb (connectDb fs.dbFile) with
  | error se =>
    rw [readDb_of_error fs se hd] at hdoc
    simp at hdoc
  | ok doc' =>
    cases hs : (serDoc doc').2 with
    | false =>
      rw [readDb_of_ok_false fs doc' hd hs] at hok
      simp at hok
    | true =>
      have heq : doc' = doc := by
        rw [readDb_of_ok_true fs doc' hd hs] at hdoc
        simpa using hdoc
      subst heq
      refine ⟨?_, serDoc_ok_eq doc' hs, ?_, escChar_nonascii⟩
      · rw [readDb_of_ok_true fs doc' hd hs]
      · intro s
        rw [readDb_of_ok_true { fs with outFile := some s } doc' hd hs]

/-- C7 witness: the format conclusion at the scenario database. -/
theorem c7_witness :
    (readDb ⟨some ⟨some todosTable⟩, none⟩).fs.outFile =
      some (serDoc ⟨"todos", ["id", "title", "done"], 2,
        [[("id", .cInt 1), ("title", .cText "Buy milk"), ("done", .cInt 0)],
         [("id", .cInt 2), ("title", .cText "Pay bills"),
          ("done", .cInt 1)]]⟩).1 :=
  (c7_output_format ⟨some ⟨some todosTable⟩, none⟩
    ⟨"todos", ["id", "title", "done"], 2,
      [[("id", .cInt 1), ("title", .cText "Buy milk"), ("done", .cInt 0)],
       [("id", .cInt 2), ("title", .cText "Pay bills"), ("done", .cInt 1)]]⟩
    (by decide) (by decide)).1

/-- C8: on the scenario table `todos` with columns
`(id INTEGER, title TEXT, done INTEGER)` and rows `(1, "Buy milk", 0)` and
`(2, "Pay bills", 1)`, the run succeeds and the export document has
`row_count` 2 and exactly the two expected records. -/
theorem c8_scenario :
    (readDb ⟨some ⟨some todosTable⟩, none⟩).doc =
      some ⟨"todos", ["id", "title", "done"], 2,
        [[("id", .cInt 1), ("title", .cText "Buy milk"), ("done", .cInt 0)],
         [("id", .cInt 2), ("title", .cText "Pay bills"),
          ("done", .cInt 1)]]⟩ ∧
    (readDb ⟨some ⟨some todosTable⟩, none⟩).outcome = .ok () := by decide

/-- C9: the `columns` list preserves the table's declared column order,
and each record is exactly the position-wise zip of the column names with
the row's values — the i-th column name is mapped to the i-th row value,
with the value passed through unchanged. -/
theorem c9_columns_and_values (fs : Fs) (t : TableData)
    (ht : fs.dbFile = some ⟨some t⟩)
    (hnd : (t.info.map ColumnInfo.name).Nodup)
    (hlen : ∀ row ∈ t.rows, row.length = t.info.length) :
    ∃ doc, (readDb fs).doc = some doc ∧
      doc.columns = t.info.map ColumnInfo.name ∧
      doc.data = t.rows.map fun row => doc.columns.zip row := by
  have hconn : connectDb fs.dbFile = ⟨some t⟩ := by rw [ht]; rfl
  have hlen' : ∀ row ∈ t.rows,
      (t.info.map ColumnInfo.name).length ≤ row.length := by
    intro row hr
    have := hlen row hr
    simp only [List.length_map]
    omega
  have hdoc : docOfDb (connectDb fs.dbFile) =
      .ok ⟨"todos", t.info.map ColumnInfo.name, t.rows.length,
           t.rows.map fun row => (t.info.map ColumnInfo.name).zip row⟩ := by
    rw [hconn]; exact docOfDb_ok t hnd hlen'
  exact ⟨_, readDb_doc_of_ok fs _ hdoc, rfl, rfl⟩

/-- C9 witness: the column-order and value pass-through conclusion at the
scenario table. -/
theorem c9_witness :
    (todosTable.info.map ColumnInfo.name).Nodup ∧
    ∃ doc, (readDb ⟨some ⟨some todosTable⟩, none⟩).doc = some doc ∧
      doc.columns = todosTable.info.map ColumnInfo.name ∧
      doc.data = todosTable.rows.map fun row => doc.columns.zip row :=
  ⟨by decide,
   c9_columns_and_values ⟨some ⟨some todosTable⟩, none⟩ todosTable rfl
     (by decide)
     (by
       intro row hr
       simp only [todosTable, List.mem_cons, List.not_mem_nil, or_false] at hr
       rcases hr with rfl | rfl <;> rfl)⟩

/-- C10: if some row contains a blob (`bytes`) cell, the document is
assembled but `json.dump` raises `TypeError` after `open(..., 'w')` has
already truncated the output file, so the run fails at the write step and
the output file is left holding the partial prefix written before the
failure — whatever content was there before is gone, and the same partial
content results from any previous output-file content (the write is not
atomic on error). -/
theorem c10_partial_write_on_blob (fs : Fs) (t : TableData)
    (ht : fs.dbFile = some ⟨some t⟩)
    (hnd : (t.info.map ColumnInfo.name).Nodup)
    (hlen : ∀ row ∈ t.rows, row.length = t.info.length)
    (hblob : ∃ row ∈ t.rows, ∃ c ∈ row, ∃ bs, c = Cell.cBlob bs) :
    ∃ doc, docOfDb ⟨some t⟩ = .ok doc ∧ (serDoc doc).2 = false ∧
      (readDb fs).outcome = .error (.writeStep,
        .typeError "Object of type bytes is not JSON serializable") ∧
      (readDb fs).fs.outFile = some (serDoc doc).1 ∧
      ∀ s : String,
        (readDb { fs with outFile := some s }).fs.outFile =
          some (serDoc doc).1 := by
  have hconn : connectDb fs.dbFile = ⟨some t⟩ := by rw [ht]; rfl
  have hlen' : ∀ row ∈ t.rows,
      (t.info.map ColumnInfo.name).length ≤ row.length := by
    intro row hr
    have := hlen row hr
    simp only [List.length_map]
    omega
  have hdoc := docOfDb_ok t hnd hlen'
  obtain ⟨row, hrow, c, hc, bs, rfl⟩ := hblob
  obtain ⟨k, hk⟩ :=
    mem_zip_right (t.info.map ColumnInfo.name) row _ hc
      (by have := hlen row hrow; simp only [List.length_map]; omega)
  have hs : (serDoc ⟨"todos", t.info.map ColumnInfo.name, t.rows.length,
      t.rows.map fun r => (t.info.map ColumnInfo.name).zip r⟩).2 = false := by
    apply serDoc_blob
    exact ⟨(t.info.map ColumnInfo.name).zip row,
           List.mem_map.mpr ⟨row, hrow, rfl⟩,
           (k, Cell.cBlob bs), hk, bs, rfl⟩
  have hd : docOfDb (connectDb fs.dbFile) =
      .ok ⟨"todos", t.info.map ColumnInfo.name, t.rows.length,
           t.rows.map fun r => (t.info.map ColumnInfo.name).zip r⟩ := by
    rw [hconn]; exact hdoc
  refine ⟨_, hdoc, hs, ?_, ?_, ?_⟩
  · rw [readDb_of_ok_false fs _ hd hs]
  · rw [readDb_of_ok_false fs _ hd hs]
  · intro s
    rw [readDb_of_ok_false { fs with outFile := some s } _ hd hs]

/-- C10 witness: the non-atomic failing write at a concrete one-row table
holding a blob cell, with a pre-existing output file. -/
theorem c10_witness :
    (readDb ⟨some ⟨some blobTable⟩, some "old"⟩).outcome =
      .error (.writeStep,
        .typeError "Object of type bytes is not JSON serializable") := by
  obtain ⟨doc, -, -, h3, -, -⟩ :=
    c10_partial_write_on_blob ⟨some ⟨some blobTable⟩, some "old"⟩ blobTable
      rfl (by decide)
      (by
        intro row hr
        simp only [blobTable, List.mem_cons, List.not_mem_nil, or_false] at hr
        rcases hr with rfl; rfl)
      ⟨[Cell.cBlob [0, 1]], by simp [blobTable], Cell.cBlob [0, 1], by simp,
       [0, 1], rfl⟩
  exact h3
